import Mathlib

/-!
Verification of the session/dispatch core of the cliobot repository
(file `cliobot/bots/__init__.py`), as a shallow embedding.

Python values that the module stores in its dictionaries are modelled by
the inductive type `Val` (with `Val.vnone` standing for Python `None`),
Python dictionaries by insertion-ordered association lists (`Dict`), and
each method of `Session`, `CachedSession`, `Message` and `BaseBot` by a
Lean function translated line by line from the source.  Python truthiness
( `if not res`, `res or default` ) is modelled by `Val.truthy` / `pyOr`.
-/

/-- Python runtime values stored in the session dictionaries.  `vnone` is
Python `None`. -/
inductive Val where
  | vnone
  | vbool (b : Bool)
  | vint (n : Int)
  | vstr (s : String)
deriving DecidableEq, Repr

/-- Python truthiness of a value (`bool(v)`). -/
def Val.truthy : Val → Bool
  | Val.vnone => false
  | Val.vbool b => b
  | Val.vint n => decide (n ≠ 0)
  | Val.vstr s => decide (s ≠ "")

/-- Python `a or b`: `a` if truthy, else `b`. -/
def pyOr (a b : Val) : Val :=
  if a.truthy then a else b

/-- A Python `dict` with string keys, as an insertion-ordered association
list with unique keys. -/
abbrev Dict := List (String × Val)

/-- Python `s.endswith(suffix)`.  (The core-library `String.endsWith` is
extensionally the same but does not reduce in the kernel, so the suffix
test is spelled out on the character lists.) -/
def strEndsWith (s suffix : String) : Bool :=
  suffix.data == s.data.drop (s.data.length - suffix.data.length)

/-- `d.get(k)` as an option (`none` when the key is missing). -/
def dictGet? : Dict → String → Option Val
  | [], _ => none
  | (k', v) :: rest, k => if k = k' then some v else dictGet? rest k

/-- `d[k] = v`: update the existing entry in place, or append a new one. -/
def dictInsert : Dict → String → Val → Dict
  | [], k, v => [(k, v)]
  | (k', w) :: rest, k, v =>
      if k = k' then (k, v) :: rest else (k', w) :: dictInsert rest k v

/-- `d.pop(k)`: the removed value (if any) together with the remaining
dictionary. -/
def dictPop : Dict → String → Option Val × Dict
  | [], _ => (none, [])
  | (k', w) :: rest, k =>
      if k = k' then (some w, rest)
      else ((dictPop rest k).1, (k', w) :: (dictPop rest k).2)

/-- The `Session` class: short-term `context` and long-term `preferences`
keyed by `(user_id, chat_id)`. -/
structure Session where
  user_id : Val
  chat_id : Val
  context : Dict
  preferences : Dict
deriving DecidableEq, Repr

/-- `Session.pop`: remove and return `context[key]` if present, else
return `None`; `preferences` is never touched. -/
def Session.pop (s : Session) (key : String) : Val × Session :=
  if (dictGet? s.context key).isSome then
    ((dictPop s.context key).1.getD Val.vnone,
     { s with context := (dictPop s.context key).2 })
  else
    (Val.vnone, s)

/-- `Session.set`: unconditional write into `context`. -/
def Session.set (s : Session) (key : String) (value : Val) : Session :=
  { s with context := dictInsert s.context key value }

/-- `Session.get`:
`res = context.get(key, None); if not res and include_preferences:
res = preferences.get(key, default); return res or default`. -/
def Session.get (s : Session) (key : String) (default : Val)
    (include_preferences : Bool) : Val :=
  pyOr
    (if !((dictGet? s.context key).getD Val.vnone).truthy && include_preferences
     then (dictGet? s.preferences key).getD default
     else (dictGet? s.context key).getD Val.vnone)
    default

/-- `Session.clear`: replace `context` with a fresh empty dict.  The
`clear_user` flag is accepted but unused (the branch that would consult it
is commented out in the source). -/
def Session.clear (s : Session) (clear_user : Bool) : Session :=
  { s with context := [] }

/-- `Session.to_dict`: merge `preferences` (when requested) then `context`
into one dict, skipping the reserved `buffer` key of the context. -/
def Session.to_dict (s : Session) (include_preferences : Bool) : Dict :=
  (s.context.foldl
    (fun r kv => if kv.1 = "buffer" then r else dictInsert r kv.1 kv.2)
    (if include_preferences
     then s.preferences.foldl (fun r kv => dictInsert r kv.1 kv.2) []
     else []))

/-- `Session.images`: the entries of `context` whose key ends in `_image`
and whose value `is not None`. -/
def Session.images (s : Session) : Dict :=
  s.context.filter (fun kv => strEndsWith kv.1 "_image" && kv.2 != Val.vnone)

/-- `Session.audios`: the entries of `context` whose key ends in `_audio`
and whose value `is not None`. -/
def Session.audios (s : Session) : Dict :=
  s.context.filter (fun kv => strEndsWith kv.1 "_audio" && kv.2 != Val.vnone)

/-- `Session.set_preference`: unconditional write into `preferences`. -/
def Session.set_preference (s : Session) (key : String) (val : Val) : Session :=
  { s with preferences := dictInsert s.preferences key val }

/-- The record returned by `db.create_or_get_chat_session(user_id)`; the
source reads the keys `external_user_id`, `context` and `preferences`. -/
structure ChatSessionData where
  external_user_id : Val
  context : Dict
  preferences : Dict
deriving DecidableEq, Repr

/-- One backing-store write performed by
`db.set_chat_context(user_id, context, preferences)`. -/
structure Write where
  user_id : Val
  context : Dict
  preferences : Dict
deriving DecidableEq, Repr

/-- The `CachedSession` subclass: a `Session` plus a `dirty` flag. -/
structure CachedSession extends Session where
  dirty : Bool
deriving DecidableEq, Repr

/-- `CachedSession.__init__`: build the base session from the chat-session
record; `dirty` starts out `False`. -/
def CachedSession.init (chat_session : ChatSessionData) (chat_id : Val) :
    CachedSession :=
  { user_id := chat_session.external_user_id,
    chat_id := chat_id,
    context := chat_session.context,
    preferences := chat_session.preferences,
    dirty := false }

/-- `CachedSession.from_cache`: ask the store for create-or-get semantics
keyed by user id, then construct.  The store's `create_or_get_chat_session`
is modelled as a function from user id to the returned record. -/
def CachedSession.from_cache (db : Val → ChatSessionData)
    (user_id chat_id : Val) : CachedSession :=
  CachedSession.init (db user_id) chat_id

/-- `CachedSession.pop`: `if key in self.context: self.dirty = True`, then
delegate to `Session.pop`. -/
def CachedSession.pop (s : CachedSession) (key : String) : Val × CachedSession :=
  if (dictGet? s.context key).isSome then
    ((Session.pop s.toSession key).1,
     { s with dirty := true, toSession := (Session.pop s.toSession key).2 })
  else
    ((Session.pop s.toSession key).1,
     { s with toSession := (Session.pop s.toSession key).2 })

/-- `CachedSession.persist`: when `dirty`, write `(context, preferences)`
through `db.set_chat_context` and reset `dirty`; otherwise do nothing.
The backing store is modelled as the list of writes issued so far. -/
def CachedSession.persist (s : CachedSession) (db : List Write) :
    CachedSession × List Write :=
  if s.dirty then
    ({ s with dirty := false },
     db ++ [{ user_id := s.user_id, context := s.context,
              preferences := s.preferences }])
  else
    (s, db)

/-- `CachedSession.set_preference`:
`if self.preferences.get(key) != val: self.dirty = True`, then delegate. -/
def CachedSession.set_preference (s : CachedSession) (key : String) (val : Val) :
    CachedSession :=
  if (dictGet? s.preferences key).getD Val.vnone ≠ val then
    { s with dirty := true,
             toSession := Session.set_preference s.toSession key val }
  else
    { s with toSession := Session.set_preference s.toSession key val }

/-- `CachedSession.set`:
`if self.context.get(key) != value: self.dirty = True`, then delegate. -/
def CachedSession.set (s : CachedSession) (key : String) (value : Val) :
    CachedSession :=
  if (dictGet? s.context key).getD Val.vnone ≠ value then
    { s with dirty := true, toSession := Session.set s.toSession key value }
  else
    { s with toSession := Session.set s.toSession key value }

/-- `CachedSession.clear`: `if len(self.context) > 0: self.dirty = True`,
then delegate to `Session.clear`. -/
def CachedSession.clear (s : CachedSession) (clear_user : Bool) : CachedSession :=
  if s.context.length > 0 then
    { s with dirty := true, toSession := Session.clear s.toSession clear_user }
  else
    { s with toSession := Session.clear s.toSession clear_user }

/-- The four mutating operations of the `CachedSession` surface. -/
inductive Op where
  | set (key : String) (value : Val)
  | set_preference (key : String) (val : Val)
  | pop (key : String)
  | clear (clear_user : Bool)
deriving DecidableEq, Repr

/-- Apply one mutating operation to a `CachedSession`. -/
def applyOp (s : CachedSession) : Op → CachedSession
  | Op.set k v => CachedSession.set s k v
  | Op.set_preference k v => CachedSession.set_preference s k v
  | Op.pop k => (CachedSession.pop s k).2
  | Op.clear b => CachedSession.clear s b

/-- An operation actually changed the session state: the context or the
preferences dictionary differs after it ran. -/
def opChangedState (s : CachedSession) (op : Op) : Prop :=
  (applyOp s op).context ≠ s.context ∨
  (applyOp s op).preferences ≠ s.preferences

/-- The one state change the dirty tracking misses: writing `None` under a
key that is absent (the code compares with `dict.get`, which conflates a
missing key with a stored `None`). -/
def opInsertsNoneAtAbsentKey (s : CachedSession) (op : Op) : Prop :=
  match op with
  | Op.set k v => v = Val.vnone ∧ dictGet? s.context k = none
  | Op.set_preference k v => v = Val.vnone ∧ dictGet? s.preferences k = none
  | Op.pop _ => False
  | Op.clear _ => False

/-- The read-only operations of the `Session` surface. -/
inductive ReadOp where
  | get (key : String) (default : Val) (include_preferences : Bool)
  | to_dict (include_preferences : Bool)
  | images
  | audios
deriving DecidableEq, Repr

/-- A value returned by a read operation. -/
inductive RetVal where
  | val (v : Val)
  | dict (d : Dict)
deriving DecidableEq, Repr

/-- Call one read-only method on a `Session`.  None of the four method
bodies assigns to any field of `self`, so the post-state of the call is
the receiver itself; the wrapper records that explicitly by returning the
state alongside the value. -/
def Session.applyRead (s : Session) : ReadOp → RetVal × Session
  | ReadOp.get k d i => (RetVal.val (Session.get s k d i), s)
  | ReadOp.to_dict i => (RetVal.dict (Session.to_dict s i), s)
  | ReadOp.images => (RetVal.dict (Session.images s), s)
  | ReadOp.audios => (RetVal.dict (Session.audios s), s)

/-- Call one read-only method on a `CachedSession`.  The subclass does not
override any of the four, so the call is the inherited `Session` method
acting on the embedded session state, with `dirty` untouched. -/
def CachedSession.applyRead (s : CachedSession) (r : ReadOp) :
    RetVal × CachedSession :=
  ((Session.applyRead s.toSession r).1,
   { s with toSession := (Session.applyRead s.toSession r).2 })

/-- The `User` value object. -/
structure User where
  username : Val
  phone : Val
  full_name : Val
  language : Val
deriving DecidableEq, Repr

/-- The `Message` value object.  `reply_to_message` holds the full message
object the source stores there, hence the recursion. -/
inductive Message where
  | mk (message_id : Val) (user_id : Val) (chat_id : Val) (user : User)
       (reply_to_message : Option Message) (reply_to_message_id : Val)
       (text : Val) (image : Val) (audio : Val) (voice : Val) (video : Val)
       (bot_id : Val) (metadata : Dict) (is_forward : Bool)

/-- Field accessor for `Message.message_id`. -/
def Message.message_id : Message → Val
  | Message.mk message_id _ _ _ _ _ _ _ _ _ _ _ _ _ => message_id

/-- Field accessor for `Message.reply_to_message_id`. -/
def Message.reply_to_message_id : Message → Val
  | Message.mk _ _ _ _ _ reply_to_message_id _ _ _ _ _ _ _ _ =>
      reply_to_message_id

/-- Field accessor for `Message.reply_to_message`. -/
def Message.reply_to_message : Message → Option Message
  | Message.mk _ _ _ _ reply_to_message _ _ _ _ _ _ _ _ _ => reply_to_message

/-- `Message.__init__`.  Defaults of the source (`None` for the optional
values, `{}` for `metadata`, `False` for `is_forward`) are passed
explicitly by callers.  After assigning the fields the constructor runs
`if self.reply_to_message and not self.reply_to_message_id:
self.reply_to_message_id = self.reply_to_message.message_id`, a truthiness
test on the id. -/
def Message.init (message_id user_id chat_id : Val) (user : User)
    (reply_to_message : Option Message) (reply_to_message_id : Val)
    (text image audio voice video bot_id : Val) (metadata : Option Dict)
    (is_forward : Bool) : Message :=
  Message.mk message_id user_id chat_id user reply_to_message
    (match reply_to_message with
     | some m =>
         if !reply_to_message_id.truthy then m.message_id
         else reply_to_message_id
     | none => reply_to_message_id)
    text image audio voice video bot_id (metadata.getD []) is_forward

/-- A `threading.Thread(target=handler.listen, args=(self,), daemon=True)`
handle: the worker it runs plus the daemon flag. -/
structure ThreadSpec (H : Type) where
  target : H
  daemon : Bool
deriving DecidableEq, Repr

/-- The worker-pool state a `BaseBot` builds in its constructor: the list
of handler instances and the list of their dedicated threads. -/
structure BaseBot (H : Type) where
  senders : List H
  threads : List (ThreadSpec H)
deriving DecidableEq, Repr

/-- `BaseBot.__init__`, restricted to the worker pool:
`self.senders = [handler_fn() for _ in range(int(os.cpu_count()))]` and
`self.threads = [Thread(target=handler.listen, args=(self,), daemon=True)
for handler in self.senders]`.  The processing-unit count reported by the
host (`os.cpu_count()`) is the `cpu_count` parameter. -/
def BaseBot.init {H : Type} (handler_fn : Unit → H) (cpu_count : Nat) :
    BaseBot H :=
  { senders := (List.range cpu_count).map (fun _ => handler_fn ()),
    threads := ((List.range cpu_count).map (fun _ => handler_fn ())).map
      (fun handler => { target := handler, daemon := true }) }

/-- Observable events of `BaseBot.listen`, in source order: the awaited
one-time startup phase (`loop.run_until_complete(self.initialize())`),
the `t.start()` calls, the return of the blocking `self.start()`, and the
`s.stop()` calls. -/
inductive Event where
  | initDone
  | initFailed
  | threadStart (i : Nat)
  | serveReturned
  | stopSignal (i : Nat)
deriving DecidableEq, Repr

/-- The event trace of `BaseBot.listen` with `n` workers.  When the
startup phase raises, `run_until_complete` propagates the exception and
the method aborts before `[t.start() for t in self.threads]`; otherwise
every thread is started in order, the blocking `self.start()` runs to
return, and then `[s.stop() for s in self.senders]` signals every
worker. -/
def BaseBot.listenTrace (n : Nat) (initOk : Bool) : List Event :=
  if initOk then
    Event.initDone :: ((List.range n).map Event.threadStart
      ++ Event.serveReturned :: (List.range n).map Event.stopSignal)
  else
    [Event.initFailed]

/-- Event `a` occurs strictly before event `b` in the trace. -/
def precedes (tr : List Event) (a b : Event) : Prop :=
  ∃ i j : Nat, i < j ∧ tr[i]? = some a ∧ tr[j]? = some b

/-- Spec-side reading of `get`, named from the corrected claim: the
context value when present and truthy, else (when allowed) the preference
value when present and truthy, else the default. -/
def Session.get_spec (s : Session) (key : String) (default : Val)
    (include_preferences : Bool) : Val :=
  if ((dictGet? s.context key).getD Val.vnone).truthy then
    (dictGet? s.context key).getD Val.vnone
  else if include_preferences then
    (if ((dictGet? s.preferences key).getD Val.vnone).truthy
     then (dictGet? s.preferences key).getD Val.vnone
     else default)
  else default

/-- Spec-side notion of a non-empty value, for the claim about `images` /
`audios`: `None` and the empty string are empty, every other modelled
value is not. -/
def Val.nonEmpty : Val → Bool
  | Val.vnone => false
  | Val.vbool _ => true
  | Val.vint _ => true
  | Val.vstr s => decide (s ≠ "")

/-- Spec-side reading of `images`, named from the claim as stated: only
entries with a non-empty value are kept. -/
def Session.images_spec (s : Session) : Dict :=
  s.context.filter (fun kv => strEndsWith kv.1 "_image" && kv.2.nonEmpty)

/-- Concrete session used to exercise `get` against the claim as stated:
the key is absent from the context and mapped to a falsy value in the
preferences. -/
def sessC2 : Session :=
  { user_id := Val.vint 1, chat_id := Val.vint 2,
    context := [], preferences := [("k", Val.vstr "")] }

/-- Concrete session with one preference entry, used against the claim
that `set` then `get` returns the written value. -/
def sessC3 : Session :=
  { user_id := Val.vint 1, chat_id := Val.vint 2,
    context := [], preferences := [("k", Val.vstr "x")] }

/-- Concrete empty session used by the witness for the amended claim
about `set` then `get`. -/
def sessC3w : Session :=
  { user_id := Val.vint 1, chat_id := Val.vint 2,
    context := [], preferences := [] }

/-- Concrete session whose context holds an image key with an empty-string
value. -/
def sessC6 : Session :=
  { user_id := Val.vint 1, chat_id := Val.vint 2,
    context := [("a_image", Val.vstr "")], preferences := [] }

/-- Concrete cached session loaded from a store with an empty context. -/
def csC1 : CachedSession :=
  CachedSession.from_cache
    (fun _ => { external_user_id := Val.vint 1, context := [],
                preferences := [] })
    (Val.vint 1) (Val.vint 2)

/-- Concrete clean cached session used by the witness for the persist
claim. -/
def csC4 : CachedSession :=
  { user_id := Val.vint 1, chat_id := Val.vint 2,
    context := [("a", Val.vint 3)], preferences := [], dirty := false }

/-- Concrete user for the message counterexample. -/
def userC7 : User :=
  { username := Val.vstr "u", phone := Val.vnone,
    full_name := Val.vnone, language := Val.vnone }

/-- A message with id `5`, used as a reply target. -/
def msgC7target : Message :=
  Message.init (Val.vint 5) (Val.vint 1) (Val.vint 2) userC7 none Val.vnone
    Val.vnone Val.vnone Val.vnone Val.vnone Val.vnone Val.vnone none false

/-- A message constructed with both a reply object and the explicit (but
falsy) id `0`. -/
def msgC7 : Message :=
  Message.init (Val.vint 9) (Val.vint 1) (Val.vint 2) userC7
    (some msgC7target) (Val.vint 0) Val.vnone Val.vnone Val.vnone Val.vnone
    Val.vnone Val.vnone none false

/-! ## Dictionary lemmas -/

/-- Looking up a key just inserted yields the inserted value. -/
theorem dictGet?_insert_self (d : Dict) (k : String) (v : Val) :
    dictGet? (dictInsert d k v) k = some v := by
  induction d with
  | nil => simp [dictInsert, dictGet?]
  | cons hd tl ih =>
      obtain ⟨k', w⟩ := hd
      by_cases h : k = k'
      · simp [dictInsert, dictGet?, h]
      · simp [dictInsert, dictGet?, h, ih]

/-- Inserting leaves the dictionary unchanged exactly when the key is
already bound to that value. -/
theorem dictInsert_eq_self_iff (d : Dict) (k : String) (v : Val) :
    dictInsert d k v = d ↔ dictGet? d k = some v := by
  induction d with
  | nil => simp [dictInsert, dictGet?]
  | cons hd tl ih =>
      obtain ⟨k', w⟩ := hd
      by_cases h : k = k'
      · subst h
        simp [dictInsert, dictGet?, eq_comm]
      · simp [dictInsert, dictGet?, h, ih]

/-- The value removed by `pop` is the value `get` sees. -/
theorem dictPop_fst (d : Dict) (k : String) :
    (dictPop d k).1 = dictGet? d k := by
  induction d with
  | nil => simp [dictPop, dictGet?]
  | cons hd tl ih =>
      obtain ⟨k', w⟩ := hd
      by_cases h : k = k'
      · simp [dictPop, dictGet?, h]
      · simp [dictPop, dictGet?, h, ih]

/-- Popping a present key shrinks the dictionary by one entry. -/
theorem dictPop_length (d : Dict) (k : String)
    (h : (dictGet? d k).isSome = true) :
    ((dictPop d k).2).length + 1 = d.length := by
  induction d with
  | nil => simp [dictGet?] at h
  | cons hd tl ih =>
      obtain ⟨k', w⟩ := hd
      by_cases hk : k = k'
      · simp [dictPop, hk]
      · simp only [dictGet?, if_neg hk] at h
        have := ih h
        simp [dictPop, hk]
        omega

/-! ## Claims about `Session` -/

/-- `None` is falsy. -/
@[simp] theorem Val.truthy_vnone : Val.vnone.truthy = false := rfl

/-- Claim C2, corrected.  `get` resolves to the context value when it is
present and truthy; otherwise, when `include_preferences` holds, to the
preference value when that is present and truthy; in every remaining case
to the default.  (The claim as stated promised the preference value even
when it is falsy; the counterexample below shows the code returns the
default there.) -/
theorem C2_get_resolution (s : Session) (key : String) (default : Val)
    (include_preferences : Bool) :
    Session.get s key default include_preferences
      = Session.get_spec s key default include_preferences := by
  unfold Session.get Session.get_spec pyOr
  rcases hc : dictGet? s.context key with _ | c
  · rcases hp : dictGet? s.preferences key with _ | p
    · cases include_preferences <;> simp
    · cases include_preferences
      · simp
      · cases hpt : p.truthy <;> simp [hpt]
  · rcases hp : dictGet? s.preferences key with _ | p
    · cases include_preferences
      · cases hct : c.truthy <;> simp [hct]
      · cases hct : c.truthy <;> simp [hct]
    · cases include_preferences
      · cases hct : c.truthy <;> simp [hct]
      · cases hct : c.truthy
        · cases hpt : p.truthy <;> simp [hct, hpt]
        · simp [hct]

/-- Claim C2, counterexample to the claim as stated: the key is absent
from the context and bound to the falsy value `""` in the preferences, yet
`get` with `include_preferences=True` returns the default `"d"`, not the
preference value. -/
theorem C2_cex :
    Session.get sessC2 "k" (Val.vstr "d") true = Val.vstr "d"
  ∧ dictGet? sessC2.context "k" = none
  ∧ dictGet? sessC2.preferences "k" = some (Val.vstr "")
  ∧ Val.vstr "d" ≠ Val.vstr "" := by decide

/-- Claim C3, corrected: after `set(k, v)` a `get(k)` (with the source's
defaults `default=None`, `include_preferences=True`) returns `v` whenever
`v` is truthy, whatever the preferences hold for `k`. -/
theorem C3_set_then_get (s : Session) (key : String) (v : Val)
    (hv : v.truthy = true) :
    Session.get (Session.set s key v) key Val.vnone true = v := by
  unfold Session.get Session.set pyOr
  simp [dictGet?_insert_self, hv]

/-- Claim C3 witness: the amended theorem applied to a concrete session
and the truthy value `"v"`. -/
theorem C3_witness :
    (Val.vstr "v").truthy = true
  ∧ Session.get (Session.set sessC3w "k" (Val.vstr "v")) "k" Val.vnone true
      = Val.vstr "v" :=
  ⟨by decide, C3_set_then_get sessC3w "k" (Val.vstr "v") (by decide)⟩

/-- Claim C3, counterexample to the claim as stated: with preference
`k = "x"` stored, `set(k, "")` followed by `get(k)` returns `"x"`, not the
value `""` that was just set. -/
theorem C3_cex :
    Session.get (Session.set sessC3 "k" (Val.vstr "")) "k" Val.vnone true
      = Val.vstr "x"
  ∧ Val.vstr "x" ≠ Val.vstr "" := by decide

/-- Claim C5, confirmed: `clear` empties the context, never touches the
preferences, and behaves identically for both values of `clear_user`, on
plain sessions and on cached sessions alike. -/
theorem C5_clear_resets_context_only :
    (∀ (s : Session) (b : Bool),
        (Session.clear s b).context = []
      ∧ (Session.clear s b).preferences = s.preferences
      ∧ Session.clear s b = Session.clear s (!b))
  ∧ (∀ (cs : CachedSession) (b : Bool),
        (CachedSession.clear cs b).context = []
      ∧ (CachedSession.clear cs b).preferences = cs.preferences
      ∧ CachedSession.clear cs b = CachedSession.clear cs (!b)) := by
  constructor
  · intro s b
    exact ⟨rfl, rfl, rfl⟩
  · intro cs b
    refine ⟨?_, ?_, ?_⟩ <;> unfold CachedSession.clear <;> split <;> rfl

/-- Claim C6, corrected: `images` (resp. `audios`) returns exactly the
context entries whose key ends in `_image` (resp. `_audio`) and whose
value is not `None` — an entry whose value is the empty string is
included. -/
theorem C6_images_audios (s : Session) (k : String) (v : Val) :
    ((k, v) ∈ Session.images s ↔
      ((k, v) ∈ s.context ∧ strEndsWith k "_image" = true ∧ v ≠ Val.vnone))
  ∧ ((k, v) ∈ Session.audios s ↔
      ((k, v) ∈ s.context ∧ strEndsWith k "_audio" = true ∧ v ≠ Val.vnone)) := by
  constructor <;>
    simp [Session.images, Session.audios, List.mem_filter, and_assoc]

/-- Claim C6, counterexample to the claim as stated: a context entry
`a_image = ""` has an empty value, yet `images` returns it, so `images`
differs from the subset of non-empty-valued image entries the claim
describes. -/
theorem C6_cex :
    Session.images sessC6 ≠ Session.images_spec sessC6
  ∧ ("a_image", Val.vstr "") ∈ Session.images sessC6
  ∧ Val.nonEmpty (Val.vstr "") = false := by decide

/-! ## Claims about `CachedSession` -/

/-- Context after a cached `set`. -/
theorem cachedSet_context (s : CachedSession) (k : String) (v : Val) :
    (CachedSession.set s k v).context = dictInsert s.context k v := by
  unfold CachedSession.set
  split <;> rfl

/-- Preferences after a cached `set`. -/
theorem cachedSet_preferences (s : CachedSession) (k : String) (v : Val) :
    (CachedSession.set s k v).preferences = s.preferences := by
  unfold CachedSession.set
  split <;> rfl

/-- Dirty flag after a cached `set`: the code's `dict.get` comparison. -/
theorem cachedSet_dirty (s : CachedSession) (k : String) (v : Val) :
    (CachedSession.set s k v).dirty
      = if (dictGet? s.context k).getD Val.vnone ≠ v then true else s.dirty := by
  unfold CachedSession.set
  split <;> rename_i h <;> simp [h]

/-- Context after a cached `set_preference`. -/
theorem cachedSetPref_context (s : CachedSession) (k : String) (v : Val) :
    (CachedSession.set_preference s k v).context = s.context := by
  unfold CachedSession.set_preference
  split <;> rfl

/-- Preferences after a cached `set_preference`. -/
theorem cachedSetPref_preferences (s : CachedSession) (k : String) (v : Val) :
    (CachedSession.set_preference s k v).preferences
      = dictInsert s.preferences k v := by
  unfold CachedSession.set_preference
  split <;> rfl

/-- Dirty flag after a cached `set_preference`. -/
theorem cachedSetPref_dirty (s : CachedSession) (k : String) (v : Val) :
    (CachedSession.set_preference s k v).dirty
      = if (dictGet? s.preferences k).getD Val.vnone ≠ v then true
        else s.dirty := by
  unfold CachedSession.set_preference
  split <;> rename_i h <;> simp [h]

/-- Context after a cached `pop`. -/
theorem cachedPop_context (s : CachedSession) (k : String) :
    ((CachedSession.pop s k).2).context
      = if (dictGet? s.context k).isSome then (dictPop s.context k).2
        else s.context := by
  unfold CachedSession.pop Session.pop
  split <;> rename_i h <;> simp [h]

/-- Preferences after a cached `pop`. -/
theorem cachedPop_preferences (s : CachedSession) (k : String) :
    ((CachedSession.pop s k).2).preferences = s.preferences := by
  unfold CachedSession.pop Session.pop
  split <;> rename_i h <;> simp [h]

/-- Dirty flag after a cached `pop`: the code's membership test. -/
theorem cachedPop_dirty (s : CachedSession) (k : String) :
    ((CachedSession.pop s k).2).dirty
      = if (dictGet? s.context k).isSome then true else s.dirty := by
  unfold CachedSession.pop
  split <;> rename_i h <;> simp [h]

/-- Context after a cached `clear`. -/
theorem cachedClear_context (s : CachedSession) (b : Bool) :
    (CachedSession.clear s b).context = [] := by
  unfold CachedSession.clear
  split <;> rfl

/-- Preferences after a cached `clear`. -/
theorem cachedClear_preferences (s : CachedSession) (b : Bool) :
    (CachedSession.clear s b).preferences = s.preferences := by
  unfold CachedSession.clear
  split <;> rfl

/-- Dirty flag after a cached `clear`: the code's emptiness test. -/
theorem cachedClear_dirty (s : CachedSession) (b : Bool) :
    (CachedSession.clear s b).dirty
      = if s.context.length > 0 then true else s.dirty := by
  unfold CachedSession.clear
  split <;> rename_i h <;> simp [h]

/-- A dirty update of the form `if changed: dirty = True` makes the new
flag true exactly when the old one was true or the condition holds. -/
theorem dirty_ite_iff (c : Prop) [Decidable c] (d : Bool) (q : Prop)
    (h : c ↔ q) : ((if c then true else d) = true ↔ (d = true ∨ q)) := by
  by_cases hc : c
  · simp [hc, h.mp hc]
  · have hq : ¬ q := fun hqq => hc (h.mpr hqq)
    simp [hc, hq]

/-- Claim C1, amended.  For every mutating operation the new dirty flag is
true exactly when the old one was true or the operation actually changed
the session state, except for the one blind spot of the `dict.get`
comparison: `set` / `set_preference` writing `None` under an absent key
adds that key without marking the session dirty.  A session built by
`from_cache` starts clean, and `persist` (the only operation that ever
lowers the flag) always leaves it false. -/
theorem C1_dirty_tracking :
    (∀ (s : CachedSession) (op : Op),
        ((applyOp s op).dirty = true ↔
          (s.dirty = true ∨
            (opChangedState s op ∧ ¬ opInsertsNoneAtAbsentKey s op))))
  ∧ (∀ (db : Val → ChatSessionData) (user_id chat_id : Val),
        (CachedSession.from_cache db user_id chat_id).dirty = false)
  ∧ (∀ (s : CachedSession) (db : List Write),
        ((CachedSession.persist s db).1).dirty = false) := by
  refine ⟨?_, fun db uid cid => rfl, ?_⟩
  · intro s op
    cases op with
    | set k v =>
        simp only [applyOp, opChangedState, opInsertsNoneAtAbsentKey,
          cachedSet_context, cachedSet_preferences]
        rw [cachedSet_dirty]
        refine dirty_ite_iff _ _ _ ?_
        rcases hg : dictGet? s.context k with _ | w
        · have hins : ¬ dictInsert s.context k v = s.context := by
            rw [dictInsert_eq_self_iff, hg]
            simp
          by_cases hv : v = Val.vnone
          · subst hv
            simp [hg, hins]
          · have hv2 : ¬ Val.vnone = v := fun h => hv h.symm
            simp [hg, hins, hv, hv2]
        · have hins : (dictInsert s.context k v = s.context) ↔ w = v := by
            rw [dictInsert_eq_self_iff, hg]
            simp
          simp [hg, hins]
    | set_preference k v =>
        simp only [applyOp, opChangedState, opInsertsNoneAtAbsentKey,
          cachedSetPref_context, cachedSetPref_preferences]
        rw [cachedSetPref_dirty]
        refine dirty_ite_iff _ _ _ ?_
        rcases hg : dictGet? s.preferences k with _ | w
        · have hins : ¬ dictInsert s.preferences k v = s.preferences := by
            rw [dictInsert_eq_self_iff, hg]
            simp
          by_cases hv : v = Val.vnone
          · subst hv
            simp [hg, hins]
          · have hv2 : ¬ Val.vnone = v := fun h => hv h.symm
            simp [hg, hins, hv, hv2]
        · have hins : (dictInsert s.preferences k v = s.preferences) ↔ w = v := by
            rw [dictInsert_eq_self_iff, hg]
            simp
          simp [hg, hins]
    | pop k =>
        simp only [applyOp, opChangedState, opInsertsNoneAtAbsentKey,
          cachedPop_context, cachedPop_preferences]
        rw [cachedPop_dirty]
        refine dirty_ite_iff _ _ _ ?_
        cases hg : (dictGet? s.context k).isSome
        · simp [hg]
        · have hlen := dictPop_length s.context k hg
          have hne : ¬ (dictPop s.context k).2 = s.context := by
            intro heq
            rw [heq] at hlen
            omega
          simp [hg, hne]
    | clear b =>
        simp only [applyOp, opChangedState, opInsertsNoneAtAbsentKey,
          cachedClear_context, cachedClear_preferences]
        rw [cachedClear_dirty]
        refine dirty_ite_iff _ _ _ ?_
        cases hctx : s.context <;> simp [hctx]
  · intro s db
    unfold CachedSession.persist
    by_cases h : s.dirty <;> simp [h]

/-- Claim C1, counterexample to the claim as stated: on a freshly loaded
session with empty context, `set("k", None)` adds the key `k` to the
context — an actual state change — yet the dirty flag stays false. -/
theorem C1_cex :
    csC1.dirty = false
  ∧ (applyOp csC1 (Op.set "k" Val.vnone)).context ≠ csC1.context
  ∧ (applyOp csC1 (Op.set "k" Val.vnone)).dirty = false := by decide

/-- Claim C4, confirmed: `persist` on a clean session performs no write
and returns the session unchanged; two consecutive persists add at most
one write to the store; and after any persist the session is clean. -/
theorem C4_persist_writes :
    ∀ (s : CachedSession) (db : List Write),
      (s.dirty = false → CachedSession.persist s db = (s, db))
    ∧ ((CachedSession.persist (CachedSession.persist s db).1
          (CachedSession.persist s db).2).2.length ≤ db.length + 1)
    ∧ ((CachedSession.persist s db).1).dirty = false := by
  intro s db
  refine ⟨?_, ?_, ?_⟩
  · intro h
    unfold CachedSession.persist
    simp [h]
  · by_cases h : s.dirty <;> simp [CachedSession.persist, h]
  · by_cases h : s.dirty <;> simp [CachedSession.persist, h]

/-- Claim C4 witness: the theorem applied to a concrete clean session and
an empty write log. -/
theorem C4_witness :
    csC4.dirty = false ∧ CachedSession.persist csC4 [] = (csC4, []) :=
  ⟨rfl, (C4_persist_writes csC4 []).1 rfl⟩

/-- Claim C10, confirmed: the read operations `get`, `to_dict`, `images`
and `audios` leave the context and the preferences of a session unchanged,
and on a cached session also the dirty flag. -/
theorem C10_reads_preserve_state :
    (∀ (s : Session) (r : ReadOp), (Session.applyRead s r).2 = s)
  ∧ (∀ (cs : CachedSession) (r : ReadOp),
        ((CachedSession.applyRead cs r).2).context = cs.context
      ∧ ((CachedSession.applyRead cs r).2).preferences = cs.preferences
      ∧ ((CachedSession.applyRead cs r).2).dirty = cs.dirty) := by
  constructor
  · intro s r
    cases r <;> rfl
  · intro cs r
    cases r <;> exact ⟨rfl, rfl, rfl⟩

/-! ## Claims about `Message` and `BaseBot` -/

/-- Claim C7, amended.  When a reply object is supplied, the stored
`reply_to_message_id` is the explicitly given id when that id is truthy,
and the reply object's message id otherwise — so a missing id (`None`) is
derived at construction time, but a falsy explicit id such as `0` is
overwritten rather than kept.  Without a reply object the given id is
stored unchanged. -/
theorem C7_reply_id_derivation (message_id user_id chat_id : Val)
    (user : User) (m : Message) (reply_to_message_id : Val)
    (text image audio voice video bot_id : Val) (metadata : Option Dict)
    (is_forward : Bool) :
    (Message.init message_id user_id chat_id user (some m)
        reply_to_message_id text image audio voice video bot_id metadata
        is_forward).reply_to_message_id
      = (if reply_to_message_id.truthy then reply_to_message_id
         else Message.message_id m)
  ∧ (Message.init message_id user_id chat_id user none reply_to_message_id
        text image audio voice video bot_id metadata
        is_forward).reply_to_message_id
      = reply_to_message_id := by
  constructor
  · unfold Message.init
    cases hr : reply_to_message_id.truthy <;>
      simp [hr, Message.reply_to_message_id]
  · rfl

/-- Claim C7, counterexample to the claim as stated: a message built with
the reply target `msgC7target` (id `5`) and the explicitly given id `0`
ends up with `reply_to_message_id = 5` — the explicit id is not kept. -/
theorem C7_cex :
    Message.reply_to_message_id msgC7 = Val.vint 5
  ∧ Message.message_id msgC7target = Val.vint 5
  ∧ (Val.vint 0 : Val) ≠ Val.vint 5 := by decide

/-- Claim C8, confirmed: the constructor builds exactly `cpu_count`
workers (one per processing unit reported by the host) and exactly
`cpu_count` threads, the `i`-th thread targeting the `i`-th worker. -/
theorem C8_worker_pool (H : Type) (handler_fn : Unit → H) (cpu_count : Nat) :
    (BaseBot.init handler_fn cpu_count).senders.length = cpu_count
  ∧ (BaseBot.init handler_fn cpu_count).threads.length = cpu_count
  ∧ ∀ i : Nat,
      ((BaseBot.init handler_fn cpu_count).threads[i]?).map ThreadSpec.target
        = (BaseBot.init handler_fn cpu_count).senders[i]? := by
  refine ⟨by simp [BaseBot.init], by simp [BaseBot.init], ?_⟩
  intro i
  by_cases hi : i < cpu_count <;>
    simp [BaseBot.init, List.getElem?_replicate, hi]

/-- Claim C9, confirmed: on the `listen` trace, a failed startup phase
aborts before any worker thread is started or stopped; with a successful
startup phase, the phase completes before each of the `n` worker threads
is started, every stop signal comes only after the blocking serve call has
returned, and every worker is signaled to stop. -/
theorem C9_listen_lifecycle :
    (∀ (n i : Nat),
        Event.threadStart i ∉ BaseBot.listenTrace n false
      ∧ Event.stopSignal i ∉ BaseBot.listenTrace n false)
  ∧ (∀ (n i : Nat), i < n →
        precedes (BaseBot.listenTrace n true) Event.initDone
          (Event.threadStart i))
  ∧ (∀ (n i : Nat), i < n →
        precedes (BaseBot.listenTrace n true) Event.serveReturned
          (Event.stopSignal i))
  ∧ (∀ (n i : Nat), i < n →
        Event.stopSignal i ∈ BaseBot.listenTrace n true) := by
  refine ⟨?_, ?_, ?_, ?_⟩
  · intro n i
    constructor <;> simp [BaseBot.listenTrace]
  · intro n i h
    refine ⟨0, i + 1, by omega, by simp [BaseBot.listenTrace], ?_⟩
    simp only [BaseBot.listenTrace, if_true, List.getElem?_cons_succ]
    rw [List.getElem?_append]
    simp [List.getElem?_map, List.getElem?_range, h]
  · intro n i h
    refine ⟨n + 1, n + 2 + i, by omega, ?_, ?_⟩
    · simp only [BaseBot.listenTrace, if_true, List.getElem?_cons_succ]
      rw [List.getElem?_append]
      simp
    · have hidx : n + 2 + i = (n + 1 + i) + 1 := by omega
      rw [hidx]
      simp only [BaseBot.listenTrace, if_true, List.getElem?_cons_succ]
      rw [List.getElem?_append]
      have hlt : ¬ (n + 1 + i
          < ((List.range n).map Event.threadStart).length) := by
        simp
        omega
      rw [if_neg hlt]
      have hsub : n + 1 + i
          - ((List.range n).map Event.threadStart).length = i + 1 := by
        simp
        omega
      rw [hsub]
      simp [List.getElem?_map, List.getElem?_range, h]
  · intro n i h
    simp only [BaseBot.listenTrace, if_true, List.mem_cons, List.mem_append,
      List.mem_map, List.mem_range]
    exact Or.inr (Or.inr (Or.inr ⟨i, h, rfl⟩))

/-- Claim C9 witness: with one worker and a successful startup phase, the
theorem yields that worker's stop signal in the trace. -/
theorem C9_witness : 0 < 1 ∧ Event.stopSignal 0 ∈ BaseBot.listenTrace 1 true :=
  ⟨by decide, C9_listen_lifecycle.2.2.2 1 0 (by decide)⟩
